import Mathlib

/-!
Verification development for the StreamGL buffer-streaming server
(`src/server.js`).  The definitions below are a shallow embedding of the
parts of `server.js` that the properties concern: the tick broadcasting
setup (lines 91-97), the per-client ready latch (lines 120-151), the
completion barrier installed by the notify stage (lines 156-170), the
`/vbo` bulk-transfer endpoint (lines 62-86), and the disconnect handler
(lines 103-107).
-/

namespace StreamGLServer

/-! ### Tick broadcasting (server.js lines 91-97, 186-191)

`var ticksMulti = animStep.ticks.publish(); ticksMulti.connect();`
`publish`/`connect` is a hot multicast with no replay buffer: a subscriber
receives only the source events produced after it subscribes, and nothing
at the moment of subscription.  Ticks are modelled by their 1-based index
in the produced sequence, given as a list. -/

/-- Events a subscriber to the published multicast `ticksMulti` observes after
joining once `joinedAfter` ticks have already been produced: only the later
ones (Rx `publish` keeps no history). -/
def publishObservedFrom (ticks : List Nat) (joinedAfter : Nat) : List Nat :=
  ticks.drop joinedAfter

/-- Values delivered to a new `ticksMulti` subscriber at the instant of
subscription: none, because `publish` (line 92) replays nothing. -/
def publishReplayedAtJoin (_joinedAfter : Nat) : List Nat := []

/-- The values ever pushed into the replay subject `graph` (lines 96-97):
`ticksMulti.take(1).subscribe(graph)` forwards exactly the first tick. -/
def graphPushed (ticks : List Nat) : List Nat := ticks.take 1

/-- What an `Rx.ReplaySubject(1)` (line 96) delivers to a subscriber at the
instant of subscription: the last value pushed so far, if any. -/
def replay1AtJoin (pushed : List Nat) : List Nat :=
  match pushed.getLast? with
  | some v => [v]
  | none => []

/-! ### Completion barrier (server.js lines 156-170)

`finishBufferTransfers[socket.id] = function (bufferName) {`
`  transferredBuffers.push(bufferName);`
`  if (transferredBuffers.length == activeBuffers.length) {`
`    sendingAllBuffers.onNext(); } }`
The notify stage installs this closure over a fresh `transferredBuffers`
array; the downstream `sendingAllBuffers.take(1)` runs the continuation on
the first `onNext`. -/

/-- One call of the barrier closure: push the name (duplicates included) and
report whether the length test fired `sendingAllBuffers.onNext()`. -/
def recordBuffer (expected : Nat) (transferred : List String) (name : String) :
    List String × Bool :=
  let t := transferred ++ [name]
  (t, t.length == expected)

/-- Run a sequence of barrier record calls, returning the final
`transferredBuffers` array and how many times `onNext` fired. -/
def runRecords (expected : Nat) (transferred : List String) :
    List String → List String × Nat
  | [] => (transferred, 0)
  | n :: ns =>
    let r := recordBuffer expected transferred n
    let rest := runRecords expected r.1 ns
    (rest.1, (if r.2 then 1 else 0) + rest.2)

/-- The barrier state installed at the start of the notify stage (lines
156-163): an empty `transferredBuffers` array and the expected count
`activeBuffers.length`. -/
def notifyStageBarrier (activeBuffers : List String) : List String × Nat :=
  ([], activeBuffers.length)

/-! ### The `/vbo` bulk-transfer endpoint (server.js lines 62-86) and the
disconnect handler (lines 103-107)

Server-wide state: `lastCompressedVbos` maps a client id to its cached
compressed buffers, `finishBufferTransfers` maps a client id to its current
barrier closure (modelled by the closure's `transferredBuffers` array).
`tickSubscriptions` records which client ids have a live pipeline
subscription created by the connection handler (lines 132-194); no code in
`server.js` ever disposes one. -/

/-- Compressed buffer payload bytes. -/
abbrev Bytes := List Nat

/-- Observable actions of one `/vbo` request handler run. -/
inductive Action where
  /-- `res.writeHead(status, headers)` (lines 73-79). -/
  | writeHead (status : Nat) (headers : List (String × String))
  /-- `res.end(body)` (line 80); `none` models `res.end(undefined)` when the
  buffer name is absent from the client's cache entry. -/
  | endBody (body : Option Bytes)
  /-- `console.error('bad request', ...)` in the catch block (line 82). -/
  | logError
  /-- the call `finishBufferTransfers[id](bufferName)` (line 84). -/
  | notifyBarrier (id buffer : String)
  deriving Repr, DecidableEq

/-- Whether the handler run returned normally or threw an exception that no
surrounding try block catches. -/
inductive VboResult where
  | returned
  | uncaughtException
  deriving Repr, DecidableEq

/-- Server-wide mutable state relevant to the `/vbo` endpoint and the
disconnect handler. -/
structure ServerState where
  /-- line 62: `{socketID -> {buffer...}}`. -/
  lastCompressedVbos : List (String × List (String × Bytes))
  /-- line 63, populated at each notify stage (line 160); each entry is the
  `transferredBuffers` array of the client's currently installed closure. -/
  finishBufferTransfers : List (String × List String)
  /-- client ids whose connection handler subscribed the event loop. -/
  tickSubscriptions : List String
  deriving Repr, DecidableEq

/-- The headers of the single `res.writeHead` call (lines 73-79). -/
def successHeaders : List (String × String) :=
  [("Content-Encoding", "gzip"),
   ("Content-Type", "text/javascript"),
   ("Access-Control-Allow-Origin", "*"),
   ("Access-Control-Allow-Headers", "X-Requested-With,Content-Type,Authorization"),
   ("Access-Control-Allow-Methods", "GET,PUT,PATCH,POST,DELETE")]

/-- Replace the value stored under key `k`, leaving every other entry as it
was. -/
def updateEntry {α : Type} (m : List (String × α)) (k : String) (v : α) :
    List (String × α) :=
  m.map fun p => if p.1 == k then (k, v) else p

/-- Remove the entry stored under key `k` (JavaScript `delete m[k]`). -/
def eraseKey {α : Type} (m : List (String × α)) (k : String) :
    List (String × α) :=
  m.filter fun p => p.1 != k

/-- The `/vbo` request handler (lines 65-85).  Inside the try block it writes
the 200 head, then evaluates `lastCompressedVbos[id][bufferName]`: a missing
client id makes the member access throw (caught and logged); a missing buffer
name yields `undefined`, which `res.end` accepts.  After the try/catch —
outside it — line 84 calls `finishBufferTransfers[id](bufferName)`: if no
closure is installed for `id`, this call itself throws with no handler. -/
def handleVbo (st : ServerState) (id buffer : String) :
    List Action × ServerState × VboResult :=
  let tryActions : List Action :=
    match st.lastCompressedVbos.lookup id with
    | none => [Action.writeHead 200 successHeaders, Action.logError]
    | some bufs => [Action.writeHead 200 successHeaders,
                    Action.endBody (bufs.lookup buffer)]
  match st.finishBufferTransfers.lookup id with
  | none => (tryActions, st, VboResult.uncaughtException)
  | some ts =>
    (tryActions ++ [Action.notifyBarrier id buffer],
     { st with finishBufferTransfers :=
         updateEntry st.finishBufferTransfers id (ts ++ [buffer]) },
     VboResult.returned)

/-- The disconnect handler (lines 104-107) runs exactly
`delete lastCompressedVbos[socket.id]`; it touches neither
`finishBufferTransfers` nor the pipeline subscription. -/
def disconnect (st : ServerState) (id : String) : ServerState :=
  { st with lastCompressedVbos := eraseKey st.lastCompressedVbos id }

/-- The status/header pairs of the `writeHead` actions in a trace. -/
def writeHeadsOf (tr : List Action) : List (Nat × List (String × String)) :=
  tr.filterMap fun a =>
    match a with
    | Action.writeHead s h => some (s, h)
    | _ => none

/-- A server with one active client `"alice"` holding a cached `position`
buffer and a freshly installed barrier closure; the id `"ghost"` is unknown
everywhere, as after a disconnect that happened before any notify stage. -/
def exActiveState : ServerState :=
  ⟨[("alice", [("position", [1, 2, 3])])], [("alice", [])], ["alice"]⟩

/-- A server where client `"alice"` has disconnected after reaching the
notify stage (its cache entry was deleted, its barrier closure survives)
while client `"bob"` is active. -/
def exStaleState : ServerState :=
  ⟨[("bob", [("color", [7])])], [("alice", []), ("bob", [])], ["bob"]⟩

/-- A server with one fully set-up connected client `"alice"`. -/
def exConnectedState : ServerState :=
  ⟨[("alice", [("color", [7])])], [("alice", [])], ["alice"]⟩

/-! ### The per-client ready latch (server.js lines 120-151)

`var clientReady = new Rx.ReplaySubject(1); clientReady.onNext(true);`
The `received_buffers` handler (lines 123-126) pushes `true`; stage 2 of the
pipeline (lines 141-151) waits for the latch to hold `true` and, on
observing it, pushes `false` and lets the cycle proceed towards the notify
stage.  The state carries, besides the latch value, a ghost counter of
buffer sets currently in flight (notified to the client but not yet
acknowledged): proceeding past stage 2 puts one set in flight, and a client
acknowledgement means the outstanding set has been fully pulled. -/

/-- Latch value plus the ghost count of in-flight buffer sets. -/
structure LatchState where
  /-- the last value pushed into the `clientReady` replay subject. -/
  clientReady : Bool
  /-- ghost: buffer sets notified but not yet acknowledged. -/
  inFlight : Nat
  deriving Repr, DecidableEq

/-- The two events that touch the latch. -/
inductive LatchEvent where
  /-- an inbound `received_buffers` message (lines 123-126): the client has
  fully pulled the outstanding set; the handler pushes `true`. -/
  | ackReceived
  /-- stage 2 observes `true` (lines 143-148): it pushes `false` and carries
  the buffer set forward, which puts it in flight. -/
  | readyObserved
  deriving Repr, DecidableEq

/-- Lines 121-122: the latch starts `true`, nothing in flight. -/
def latchInit : LatchState := ⟨true, 0⟩

/-- Effect of one event.  `readyObserved` is guarded by the
`filter(_.identity)` on line 144: when the latch holds `false` the stage
keeps waiting and nothing happens. -/
def latchStep (s : LatchState) : LatchEvent → LatchState
  | LatchEvent.ackReceived => ⟨true, s.inFlight - 1⟩
  | LatchEvent.readyObserved =>
    if s.clientReady then ⟨false, s.inFlight + 1⟩ else s

/-- The latch state after an arbitrary interleaving of events. -/
def latchRun (es : List LatchEvent) : LatchState :=
  es.foldl latchStep latchInit

/-! ### Where the pipeline's side effects happen (server.js lines 132-193)

The five stages of the spec's pipeline correspond to the operator chain in
`graph.expand(...)`.  Each entry below transcribes one side effect of the
chain together with the stage whose operator performs it. -/

/-- The five pipeline stages. -/
inductive Stage where
  | fetching
  | awaitingReady
  | notifying
  | awaitingBarrier
  | awaitingNextTick
  deriving Repr, DecidableEq

/-- The side-effect kinds the pipeline performs. -/
inductive SideEffect where
  | bufferCacheWrite
  | controlChannelSend
  | readyLatchRead
  | readyLatchWrite
  | barrierReset
  deriving Repr, DecidableEq

/-- Stage/side-effect pairs transcribed from the operator chain:
the buffer-cache write `lastCompressedVbos[socket.id] = vbos.compressed`
sits on line 139, inside the `.do` attached to the stage-1 fetch
(lines 135-140); stage 2 reads the latch through `filter` (line 144) and
writes `false` (line 148); stage 3 installs a fresh barrier closure
(lines 156-170) and emits `vbo_update` on the control channel (lines
172-174); stages 4 and 5 only wait. -/
def pipelineEffects : List (Stage × SideEffect) :=
  [(Stage.fetching, SideEffect.bufferCacheWrite),
   (Stage.awaitingReady, SideEffect.readyLatchRead),
   (Stage.awaitingReady, SideEffect.readyLatchWrite),
   (Stage.notifying, SideEffect.barrierReset),
   (Stage.notifying, SideEffect.controlChannelSend)]

/-! ### Barrier-callback registration across cycles (server.js lines 160, 84)

Each notify stage assigns `finishBufferTransfers[socket.id] = function ...`,
a single map slot, so the assignment overwrites whatever the previous cycle
installed.  A `/vbo` pull calls the currently installed closure, so its push
lands in the `transferredBuffers` array of the cycle that installed it.
Cycles are numbered; `counts k` is the received count of cycle `k`. -/

/-- The registration slot of one client plus the per-cycle received counts. -/
structure CycleState where
  /-- which cycle's closure `finishBufferTransfers[socket.id]` holds. -/
  registered : Option Nat
  /-- received count of each cycle's `transferredBuffers` array. -/
  counts : Nat → Nat

/-- The events affecting the registration slot of one client. -/
inductive CycleEvent where
  /-- cycle `k` reaches the notify stage and runs line 160. -/
  | notifyStage (cycle : Nat)
  /-- a `/vbo` pull for this client runs line 84. -/
  | bulkPull
  deriving Repr, DecidableEq

/-- Before the first notify stage nothing is registered and every count is
zero. -/
def cycleInit : CycleState := ⟨none, fun _ => 0⟩

/-- Effect of one event: a notify stage overwrites the slot; a pull calls
the registered closure, incrementing that cycle's count (with nothing
registered, line 84 throws and no count changes). -/
def cycleStep (s : CycleState) : CycleEvent → CycleState
  | CycleEvent.notifyStage k => ⟨some k, s.counts⟩
  | CycleEvent.bulkPull =>
    match s.registered with
    | some k => ⟨some k, fun c => if c = k then s.counts c + 1 else s.counts c⟩
    | none => s

/-- The cycle state after an arbitrary event sequence. -/
def cycleRun (es : List CycleEvent) : CycleState :=
  es.foldl cycleStep cycleInit

/-- The cycle number of the most recent notify stage in the sequence. -/
def lastNotified (es : List CycleEvent) : Option Nat :=
  es.foldl
    (fun acc e =>
      match e with
      | CycleEvent.notifyStage k => some k
      | CycleEvent.bulkPull => acc)
    none

/-! ### Helper lemmas -/

/-- Unfold `List.lookup` over a cons cell. -/
theorem lookup_cons {α : Type} (p : String × α) (l : List (String × α)) (k : String) :
    (p :: l).lookup k = if k == p.1 then some p.2 else l.lookup k := by
  rcases p with ⟨a, b⟩
  simp only [List.lookup]
  rcases h : k == a with _ | _ <;> simp [h]

/-- `updateEntry` leaves the value stored under any other key unchanged. -/
theorem lookup_updateEntry {α : Type} (m : List (String × α)) (k k2 : String)
    (v : α) (h : k2 ≠ k) : (updateEntry m k v).lookup k2 = m.lookup k2 := by
  induction m with
  | nil => rfl
  | cons p m ih =>
    have hstep : updateEntry (p :: m) k v
        = (if p.1 == k then (k, v) else p) :: updateEntry m k v := rfl
    rw [hstep]
    by_cases hp : p.1 = k
    · rw [if_pos (by simp [hp]), lookup_cons, lookup_cons]
      rw [if_neg (by simp [h]), if_neg (by simp [hp, h])]
      exact ih
    · rw [if_neg (by simp [hp]), lookup_cons, lookup_cons]
      split
      · rfl
      · exact ih

/-- After `eraseKey m k` the key `k` is absent. -/
theorem lookup_eraseKey_self {α : Type} (m : List (String × α)) (k : String) :
    (eraseKey m k).lookup k = none := by
  induction m with
  | nil => rfl
  | cons p m ih =>
    by_cases hp : p.1 = k
    · simpa [eraseKey, hp] using ih
    · simp only [eraseKey, List.filter_cons] at *
      rw [if_pos (by simp [hp])]
      simp [lookup_cons, ih, hp, Ne.symm hp]

/-- `eraseKey m k` leaves the value stored under any other key unchanged. -/
theorem lookup_eraseKey_ne {α : Type} (m : List (String × α)) (k k2 : String)
    (h : k2 ≠ k) : (eraseKey m k).lookup k2 = m.lookup k2 := by
  induction m with
  | nil => rfl
  | cons p m ih =>
    have hstep : eraseKey (p :: m) k
        = if (p.1 != k) = true then p :: eraseKey m k else eraseKey m k := by
      simp [eraseKey, List.filter_cons]
    by_cases hp : p.1 = k
    · rw [hstep, if_neg (by simp [hp]), ih, lookup_cons,
        if_neg (by simp [hp, h])]
    · rw [hstep, if_pos (by simp [hp]), lookup_cons, lookup_cons, ih]

/-- The barrier array accumulates every recorded name, duplicates included. -/
theorem runRecords_transferred (expected : Nat) (ts ns : List String) :
    (runRecords expected ts ns).1 = ts ++ ns := by
  induction ns generalizing ts with
  | nil => simp [runRecords]
  | cons n ns ih => simp [runRecords, recordBuffer, ih]

/-- `onNext` fires exactly once along a record sequence iff the running
length passes through `expected`, and never otherwise. -/
theorem runRecords_fireCount (expected : Nat) (ts ns : List String) :
    (runRecords expected ts ns).2 =
      if ts.length < expected ∧ expected ≤ ts.length + ns.length then 1 else 0 := by
  induction ns generalizing ts with
  | nil =>
    simp only [runRecords, List.length_nil]
    rw [if_neg (by omega)]
  | cons n ns ih =>
    simp only [runRecords, recordBuffer, ih]
    simp only [List.length_append, List.length_cons, List.length_nil, Nat.zero_add]
    by_cases h : ts.length + 1 = expected
    · rw [if_pos (by simp [h]), if_neg (by omega), if_pos (by omega)]
    · rw [if_neg (by simp [h])]
      by_cases h2 : ts.length + 1 < expected ∧ expected ≤ ts.length + 1 + ns.length
      · rw [if_pos h2, if_pos (by omega)]
      · rw [if_neg h2, if_neg (by omega)]

/-- The latch invariant: never more than one buffer set in flight, and a
latch holding `true` means nothing is in flight. -/
def latchInv (s : LatchState) : Prop :=
  s.inFlight ≤ 1 ∧ (s.clientReady = true → s.inFlight = 0)

/-- One event preserves the latch invariant. -/
theorem latchStep_inv (s : LatchState) (e : LatchEvent) (h : latchInv s) :
    latchInv (latchStep s e) := by
  rcases h with ⟨h1, h2⟩
  cases e with
  | ackReceived =>
    refine ⟨by simp [latchStep]; omega, fun _ => by simp [latchStep]; omega⟩
  | readyObserved =>
    by_cases hr : s.clientReady = true
    · have h0 : s.inFlight = 0 := h2 hr
      simp only [latchStep, hr, if_true]
      exact ⟨by simp [h0], by simp⟩
    · simp only [latchStep, hr]
      simp only [Bool.not_eq_true] at hr
      simp [hr]
      exact ⟨h1, fun hc => h2 (by simp [hc])⟩

/-- The invariant holds after any event sequence from any state satisfying
it. -/
theorem latchFold_inv (es : List LatchEvent) (s : LatchState) (h : latchInv s) :
    latchInv (es.foldl latchStep s) := by
  induction es generalizing s with
  | nil => exact h
  | cons e es ih => exact ih (latchStep s e) (latchStep_inv s e h)

/-- The registration slot after an event sequence equals the fold computing
the most recent notify stage. -/
theorem cycleFold_registered (es : List CycleEvent) (s : CycleState) :
    (es.foldl cycleStep s).registered =
      es.foldl
        (fun acc e =>
          match e with
          | CycleEvent.notifyStage k => some k
          | CycleEvent.bulkPull => acc)
        s.registered := by
  induction es generalizing s with
  | nil => rfl
  | cons e es ih =>
    cases e with
    | notifyStage k =>
      rw [List.foldl_cons, List.foldl_cons, ih]
      rfl
    | bulkPull =>
      rw [List.foldl_cons, List.foldl_cons, ih]
      rcases hreg : s.registered with _ | k <;> simp [cycleStep, hreg]

/-! ### Claim theorems -/

/-- Claim C1, counterexample: after two ticks (values 10, 20) have been
produced, a new subscriber to the published tick broadcaster receives
nothing at the moment it joins (so tick 2 is not delivered immediately),
and its first observed element is tick 3 (value 30) once that is produced —
not tick 2; the replay subject `graph` delivers tick 1 (value 10), again
not tick 2.  This refutes the claim that the first tick a late subscriber
observes is the most recently produced one, delivered immediately. -/
theorem claim_C1_counterexample :
    publishReplayedAtJoin 2 = [] ∧
    (publishObservedFrom [10, 20] 2).head? = none ∧
    (publishObservedFrom [10, 20, 30] 2).head? = some 30 ∧
    replay1AtJoin (graphPushed [10, 20]) = [10] := by decide

/-- Claim C1, amended: a subscriber joining the published tick broadcaster
after `n` ticks receives nothing at the moment of subscription, observes
tick `n + 1` as its first element once it exists, and observes the
remaining ticks in production order; only the replay subject `graph`
delivers a tick immediately, and that tick is always tick 1. -/
theorem claim_C1_amended (ticks : List Nat) (n : Nat) :
    publishReplayedAtJoin n = [] ∧
    (publishObservedFrom ticks n).head? = ticks[n]? ∧
    List.IsSuffix (publishObservedFrom ticks n) ticks ∧
    replay1AtJoin (graphPushed ticks) = ticks.take 1 := by
  refine ⟨rfl, List.head?_drop ticks n, List.drop_suffix n ticks, ?_⟩
  cases ticks with
  | nil => rfl
  | cons t ts => rfl

/-- Claim C2: over every interleaving of acknowledgement and
ready-observation events, at most one buffer set is in flight, a latch
holding `true` means nothing is in flight, and the only event that turns
the latch from `false` back to `true` is an inbound `received_buffers`
acknowledgement. -/
theorem claim_C2 (es : List LatchEvent) (e : LatchEvent) :
    (latchRun es).inFlight ≤ 1 ∧
    ((latchRun es).clientReady = true → (latchRun es).inFlight = 0) ∧
    ((latchRun es).clientReady = false →
      (latchRun (es ++ [e])).clientReady = true → e = LatchEvent.ackReceived) := by
  have hinv : latchInv (latchRun es) :=
    latchFold_inv es latchInit ⟨by simp [latchInit], fun _ => rfl⟩
  refine ⟨hinv.1, hinv.2, ?_⟩
  intro hf ht
  have happ : latchRun (es ++ [e]) = latchStep (latchRun es) e := by
    simp [latchRun, List.foldl_append]
  rw [happ] at ht
  cases e with
  | ackReceived => rfl
  | readyObserved => simp [latchStep, hf] at ht

/-- Claim C2, witness: along the concrete trace where stage 2 proceeds once,
the latch is `false` with one buffer set in flight, and the event restoring
`true` is the acknowledgement. -/
theorem claim_C2_witness :
    (latchRun [LatchEvent.readyObserved]).inFlight ≤ 1 ∧
    (latchRun [LatchEvent.readyObserved]).clientReady = false ∧
    (latchRun ([LatchEvent.readyObserved] ++ [LatchEvent.ackReceived])).clientReady
      = true ∧
    LatchEvent.ackReceived = LatchEvent.ackReceived :=
  ⟨(claim_C2 [LatchEvent.readyObserved] LatchEvent.ackReceived).1,
   by decide, by decide,
   (claim_C2 [LatchEvent.readyObserved] LatchEvent.ackReceived).2.2
     (by decide) (by decide)⟩

/-- Claim C3, counterexample: with expected count 2, recording the buffer
name "color" twice fires the continuation, although only one distinct name
was recorded — `record` is not idempotent per buffer name, and the
continuation can fire before `expected` distinct names have arrived. -/
theorem claim_C3_counterexample :
    (runRecords 2 [] ["color", "color"]).2 = 1 ∧
    (runRecords 2 [] ["color", "color"]).1.length = 2 ∧
    (["color", "color"] : List String).eraseDups = ["color"] := by decide

/-- Claim C3, amended: every record call increments the received count,
duplicates included; for every arrival order, the continuation is invoked
exactly once per notify stage — at the call where the total number of
record calls reaches `expected` — and never when fewer than `expected`
calls arrive (or when `expected` is zero). -/
theorem claim_C3_amended (expected : Nat) (ns : List String) :
    (runRecords expected [] ns).1.length = ns.length ∧
    (runRecords expected [] ns).2 =
      if 0 < expected ∧ expected ≤ ns.length then 1 else 0 := by
  constructor
  · rw [runRecords_transferred]
    simp
  · rw [runRecords_fireCount]
    simp only [List.length_nil, Nat.zero_add]

/-- Claim C4, counterexample, in two parts.  First, a pull for client id
"ghost" — unknown to the buffer cache and with no barrier closure
installed, e.g. a client that disconnected before ever reaching the notify
stage — makes the endpoint throw an uncaught exception at line 84, which
sits outside the try block, refuting the claim that such a request returns
without throwing.  Second, a pull for the known client "alice" with the
buffer name "color" absent from her cache entry produces the trace
`writeHead 200` / empty body / barrier notification: no failure is logged
and the request is answered rather than aborted, refuting the claim that a
lookup failure on the buffer name logs the failure and aborts the
request. -/
theorem claim_C4_counterexample :
    exActiveState.lastCompressedVbos.lookup "ghost" = none ∧
    (handleVbo exActiveState "ghost" "color").2.2 = VboResult.uncaughtException ∧
    (exActiveState.lastCompressedVbos.lookup "alice").isSome ∧
    (handleVbo exActiveState "alice" "color").1 =
      [Action.writeHead 200 successHeaders, Action.endBody none,
       Action.notifyBarrier "alice" "color"] := by
  decide

/-- Claim C4, amended: the endpoint returns without throwing exactly when a
barrier closure is installed for the requested client id; a cache lookup
failing on an unknown client id is caught and logged, while an unknown
buffer name for a known client id is not logged at all — the response is
ended with an empty body instead of being aborted.  When the client id is
absent from the barrier map, the final barrier call throws uncaught.  In
every case, every other client's cache entry, barrier entry and pipeline
subscription are left unchanged. -/
theorem claim_C4_amended (st : ServerState) (id buffer : String) :
    ((handleVbo st id buffer).2.2 = VboResult.returned ↔
      (st.finishBufferTransfers.lookup id).isSome) ∧
    (st.lastCompressedVbos.lookup id = none →
      Action.logError ∈ (handleVbo st id buffer).1) ∧
    (handleVbo st id buffer).2.1.lastCompressedVbos = st.lastCompressedVbos ∧
    (handleVbo st id buffer).2.1.tickSubscriptions = st.tickSubscriptions ∧
    (∀ id2, id2 ≠ id →
      (handleVbo st id buffer).2.1.finishBufferTransfers.lookup id2 =
        st.finishBufferTransfers.lookup id2) ∧
    (∀ bufs, st.lastCompressedVbos.lookup id = some bufs →
      bufs.lookup buffer = none →
      Action.logError ∉ (handleVbo st id buffer).1 ∧
      Action.endBody none ∈ (handleVbo st id buffer).1) := by
  have hnew : ∀ bufs, st.lastCompressedVbos.lookup id = some bufs →
      bufs.lookup buffer = none →
      Action.logError ∉ (handleVbo st id buffer).1 ∧
      Action.endBody none ∈ (handleVbo st id buffer).1 := by
    intro bufs hv hnone
    rcases hbs : st.finishBufferTransfers.lookup id with _ | ts <;>
      simp [handleVbo, hv, hbs, hnone]
  have hmain : ((handleVbo st id buffer).2.2 = VboResult.returned ↔
      (st.finishBufferTransfers.lookup id).isSome) ∧
      (st.lastCompressedVbos.lookup id = none →
        Action.logError ∈ (handleVbo st id buffer).1) ∧
      (handleVbo st id buffer).2.1.lastCompressedVbos = st.lastCompressedVbos ∧
      (handleVbo st id buffer).2.1.tickSubscriptions = st.tickSubscriptions ∧
      (∀ id2, id2 ≠ id →
        (handleVbo st id buffer).2.1.finishBufferTransfers.lookup id2 =
          st.finishBufferTransfers.lookup id2) := by
    rcases hbs : st.finishBufferTransfers.lookup id with _ | ts
    · rcases hv : st.lastCompressedVbos.lookup id with _ | bufs <;>
        simp [handleVbo, hv, hbs]
    · rcases hv : st.lastCompressedVbos.lookup id with _ | bufs <;>
        simp [handleVbo, hv, hbs] <;>
        exact fun id2 h2 => lookup_updateEntry st.finishBufferTransfers id id2
          (ts ++ [buffer]) h2
  exact ⟨hmain.1, hmain.2.1, hmain.2.2.1, hmain.2.2.2.1, hmain.2.2.2.2, hnew⟩

/-- Claim C4, witness: the client "alice" of `exStaleState` disconnected
after its notify stage (cache entry deleted, barrier closure surviving); a
pull for her buffer returns, logs the failure, and leaves the active client
"bob"'s barrier entry unchanged.  In `exActiveState`, where "alice" is
connected but caches no buffer named "color", the pull for that name ends
the response with an empty body and logs nothing. -/
theorem claim_C4_witness :
    (handleVbo exStaleState "alice" "color").2.2 = VboResult.returned ∧
    Action.logError ∈ (handleVbo exStaleState "alice" "color").1 ∧
    (handleVbo exStaleState "alice" "color").2.1.finishBufferTransfers.lookup "bob" =
      exStaleState.finishBufferTransfers.lookup "bob" ∧
    Action.logError ∉ (handleVbo exActiveState "alice" "color").1 ∧
    Action.endBody none ∈ (handleVbo exActiveState "alice" "color").1 :=
  ⟨((claim_C4_amended exStaleState "alice" "color").1).mpr (by decide),
   (claim_C4_amended exStaleState "alice" "color").2.1 (by decide),
   (claim_C4_amended exStaleState "alice" "color").2.2.2.2.1 "bob" (by decide),
   ((claim_C4_amended exActiveState "alice" "color").2.2.2.2.2
     [("position", [1, 2, 3])] (by decide) (by decide)).1,
   ((claim_C4_amended exActiveState "alice" "color").2.2.2.2.2
     [("position", [1, 2, 3])] (by decide) (by decide)).2⟩

/-- Claim C5: whenever a barrier closure is installed for the requested
client id, the endpoint notifies the completion barrier for that
client/buffer pair — whichever way the cache lookup goes — and the
notification is the last action of the handler, strictly after all
response handling. -/
theorem claim_C5 (st : ServerState) (id buffer : String)
    (hb : (st.finishBufferTransfers.lookup id).isSome) :
    (handleVbo st id buffer).2.2 = VboResult.returned ∧
    (handleVbo st id buffer).1.getLast? = some (Action.notifyBarrier id buffer) ∧
    Action.notifyBarrier id buffer ∉ (handleVbo st id buffer).1.dropLast := by
  rcases hbs : st.finishBufferTransfers.lookup id with _ | ts
  · rw [hbs] at hb
    simp at hb
  · rcases hv : st.lastCompressedVbos.lookup id with _ | bufs <;>
      simp [handleVbo, hv, hbs]

/-- Claim C5, witness: for the disconnected client "alice" (cache lookup
fails, barrier closure still installed) the pull returns and its final
action is the barrier notification. -/
theorem claim_C5_witness :
    (handleVbo exStaleState "alice" "color").1.getLast? =
      some (Action.notifyBarrier "alice" "color") ∧
    Action.notifyBarrier "alice" "color" ∉
      (handleVbo exStaleState "alice" "color").1.dropLast :=
  ⟨(claim_C5 exStaleState "alice" "color" (by decide)).2.1,
   (claim_C5 exStaleState "alice" "color" (by decide)).2.2⟩

/-- Claim C6, counterexample: a notify stage with one active buffer resets
the barrier to an empty array with expected count 1, but two pulls within
that cycle drive the received count to 2, exceeding the expected count —
nothing in the closure caps the count. -/
theorem claim_C6_counterexample :
    notifyStageBarrier ["position"] = ([], 1) ∧
    (runRecords 1 [] ["position", "position"]).1.length = 2 ∧
    1 < (runRecords 1 [] ["position", "position"]).1.length := by decide

/-- Claim C6, amended: every notify stage resets the barrier to a received
count of zero with expected count equal to the number of active buffer
names; the received count equals the number of record calls of the cycle,
and therefore stays within the expected count whenever at most `expected`
pulls arrive in the cycle (the code itself enforces no such cap). -/
theorem claim_C6_amended (activeBuffers ns : List String)
    (h : ns.length ≤ activeBuffers.length) :
    notifyStageBarrier activeBuffers = ([], activeBuffers.length) ∧
    (runRecords activeBuffers.length [] ns).1.length = ns.length ∧
    (runRecords activeBuffers.length [] ns).1.length ≤ activeBuffers.length := by
  refine ⟨rfl, ?_, ?_⟩ <;> rw [runRecords_transferred] <;> simp [h]

/-- Claim C6, witness: with active buffers `position, color` and a single
pull recorded, the barrier resets to `([], 2)` and the received count stays
within the expected count. -/
theorem claim_C6_witness :
    notifyStageBarrier ["position", "color"] = ([], 2) ∧
    (runRecords 2 [] ["position"]).1.length = 1 ∧
    (runRecords 2 [] ["position"]).1.length ≤ 2 :=
  ⟨(claim_C6_amended ["position", "color"] ["position"] (by decide)).1,
   (claim_C6_amended ["position", "color"] ["position"] (by decide)).2.1,
   (claim_C6_amended ["position", "color"] ["position"] (by decide)).2.2⟩

/-- Claim C7, counterexample: the buffer-cache write is performed by the
`.do` block of the FETCHING stage (line 139), and no buffer-cache write
occurs in the NOTIFYING stage — refuting the claim that the buffer set is
written into the cache in stage 3. -/
theorem claim_C7_counterexample :
    (Stage.fetching, SideEffect.bufferCacheWrite) ∈ pipelineEffects ∧
    (Stage.notifying, SideEffect.bufferCacheWrite) ∉ pipelineEffects := by decide

/-- Claim C7, amended: the pipeline's only buffer-cache write happens in the
FETCHING stage's do-block; side effects are confined to that cache write
(stage 1), the barrier reset and control-channel send (stage 3), and the
ready-latch read/write (stage 2, with the latch also written externally by
the acknowledgement handler). -/
theorem claim_C7_amended :
    (pipelineEffects.filter fun p => p.2 == SideEffect.bufferCacheWrite) =
      [(Stage.fetching, SideEffect.bufferCacheWrite)] ∧
    pipelineEffects.all
      (fun p =>
        match p.2 with
        | SideEffect.bufferCacheWrite => p.1 == Stage.fetching
        | SideEffect.controlChannelSend => p.1 == Stage.notifying
        | SideEffect.barrierReset => p.1 == Stage.notifying
        | SideEffect.readyLatchRead => p.1 == Stage.awaitingReady
        | SideEffect.readyLatchWrite => p.1 == Stage.awaitingReady) = true := by
  decide

/-- Claim C8, counterexample: disconnecting the fully set-up client "alice"
leaves her barrier closure installed and her pipeline subscription live,
and a subsequent bulk pull for her id still produces data-channel activity
(a barrier notification) — refuting discard of barrier state,
unsubscription, and the absence of further activity. -/
theorem claim_C8_counterexample :
    (disconnect exConnectedState "alice").finishBufferTransfers.lookup "alice" =
      some [] ∧
    (disconnect exConnectedState "alice").tickSubscriptions = ["alice"] ∧
    Action.notifyBarrier "alice" "color" ∈
      (handleVbo (disconnect exConnectedState "alice") "alice" "color").1 := by
  decide

/-- Claim C8, amended: the disconnect handler removes exactly the client's
buffer-cache entry; the client's barrier entry and the pipeline
subscription persist, and every other client's cache entry is untouched. -/
theorem claim_C8_amended (st : ServerState) (id : String) :
    (disconnect st id).lastCompressedVbos.lookup id = none ∧
    (disconnect st id).finishBufferTransfers = st.finishBufferTransfers ∧
    (disconnect st id).tickSubscriptions = st.tickSubscriptions ∧
    (∀ id2, id2 ≠ id →
      (disconnect st id).lastCompressedVbos.lookup id2 =
        st.lastCompressedVbos.lookup id2) :=
  ⟨lookup_eraseKey_self st.lastCompressedVbos id, rfl, rfl,
   fun id2 h2 => lookup_eraseKey_ne st.lastCompressedVbos id id2 h2⟩

/-- Claim C8, witness: disconnecting "alice" erases her cache entry, keeps
the barrier map unchanged, and preserves "bob"'s cache lookup. -/
theorem claim_C8_witness :
    (disconnect exConnectedState "alice").lastCompressedVbos.lookup "alice" = none ∧
    (disconnect exConnectedState "alice").finishBufferTransfers =
      exConnectedState.finishBufferTransfers ∧
    (disconnect exConnectedState "alice").lastCompressedVbos.lookup "bob" =
      exConnectedState.lastCompressedVbos.lookup "bob" :=
  ⟨(claim_C8_amended exConnectedState "alice").1,
   (claim_C8_amended exConnectedState "alice").2.1,
   (claim_C8_amended exConnectedState "alice").2.2.2 "bob" (by decide)⟩

/-- Claim C9: every handler run writes the response head exactly once,
before any lookup, with status 200 and the success headers — so a request
that fails the lookup is never answered with an error status. -/
theorem claim_C9 (st : ServerState) (id buffer : String) :
    (handleVbo st id buffer).1.head? =
      some (Action.writeHead 200 successHeaders) ∧
    writeHeadsOf (handleVbo st id buffer).1 = [(200, successHeaders)] := by
  rcases hbs : st.finishBufferTransfers.lookup id with _ | ts <;>
    rcases hv : st.lastCompressedVbos.lookup id with _ | bufs <;>
      simp [handleVbo, hv, hbs, writeHeadsOf]

/-- Claim C10: for every client, a single registration slot holds the
barrier callback; after any event sequence it holds the callback installed
by the most recent notify stage, and a bulk pull increments exactly the
received count of that most recently started cycle. -/
theorem claim_C10 (es : List CycleEvent) (c : Nat) :
    (cycleRun es).registered = lastNotified es ∧
    (cycleRun (es ++ [CycleEvent.bulkPull])).counts c =
      (cycleRun es).counts c +
        (if lastNotified es = some c then 1 else 0) := by
  have hreg : (cycleRun es).registered = lastNotified es :=
    cycleFold_registered es cycleInit
  refine ⟨hreg, ?_⟩
  have happ : cycleRun (es ++ [CycleEvent.bulkPull])
      = cycleStep (cycleRun es) CycleEvent.bulkPull := by
    simp [cycleRun, List.foldl_append]
  rw [happ]
  rcases hr : (cycleRun es).registered with _ | k
  · have hl : lastNotified es = none := hreg ▸ hr
    simp [cycleStep, hr, hl]
  · have hl : lastNotified es = some k := hreg ▸ hr
    by_cases hc : c = k <;> simp [cycleStep, hr, hl, hc, eq_comm]

end StreamGLServer
